import Mathlib

/-!
Verification development for the recipe-unit-converter repository
(source files: recipe_converter/{converter,parser,models,ingredients_db,cli}.py).

Shallow embedding conventions:
* Python floats are modelled as exact rationals: every numeric constant in the
  source is a decimal literal, exact in the rationals, and every value the
  claims touch is produced by exact arithmetic on those constants.  A decimal
  constant a.bcd is written here as mkRat abcd 1000.
* Rational arithmetic is written with the helpers rAdd, rSub, rMul, rDiv,
  which are proved equal to +, -, * and / on the rationals below; they are
  used because they evaluate by reduction, which the library operations on
  Rat deliberately do not.
* Python exceptions are modelled with the Except monad over the PyErr type;
  functions that cannot raise keep a plain return type.
* Python strings are modelled by Lean String; string helpers (strip, split,
  casefold, replace) are implemented over List Char mirroring Python
  semantics for the ASCII-plus-degree-sign texts this program deals with.
* Python dicts are modelled by association lists with insert-overwrite
  (dictSet) and first-match lookup (dictGet); this matches dict semantics
  because dictSet keeps keys unique.
-/

set_option maxRecDepth 40000

/-- The exception classes that can escape the modelled code paths:
ValueError (raised by the unit converters) and ZeroDivisionError
(raised by Fraction construction with a zero denominator). -/
inductive PyErr where
  | valueError : PyErr
  | zeroDivisionError : PyErr
deriving DecidableEq, Repr

deriving instance DecidableEq for Except

/-- Rational addition, written through Rat.divInt so that it evaluates by
reduction; proved equal to + in rAdd_eq. -/
def rAdd (a b : Rat) : Rat := Rat.divInt (a.num * b.den + b.num * a.den) (a.den * b.den)

/-- Rational subtraction through Rat.divInt; proved equal to - in rSub_eq. -/
def rSub (a b : Rat) : Rat := Rat.divInt (a.num * b.den - b.num * a.den) (a.den * b.den)

/-- Rational multiplication through Rat.divInt; proved equal to * in rMul_eq. -/
def rMul (a b : Rat) : Rat := Rat.divInt (a.num * b.num) (a.den * b.den)

/-- Rational division through Rat.divInt; proved equal to / in rDiv_eq. -/
def rDiv (a b : Rat) : Rat := Rat.divInt (a.num * b.den) (b.num * a.den)

theorem rMul_eq (a b : Rat) : rMul a b = a * b := by
  rw [rMul, Rat.divInt_eq_div]
  push_cast
  rw [← div_mul_div_comm, Rat.num_div_den, Rat.num_div_den]

theorem rAdd_eq (a b : Rat) : rAdd a b = a + b := by
  have had : (a.den : Rat) ≠ 0 := by exact_mod_cast a.den_nz
  have hbd : (b.den : Rat) ≠ 0 := by exact_mod_cast b.den_nz
  rw [rAdd, Rat.divInt_eq_div]
  push_cast
  conv_rhs => rw [← Rat.num_div_den a, ← Rat.num_div_den b]
  rw [div_add_div _ _ had hbd]
  congr 1
  ring

theorem rSub_eq (a b : Rat) : rSub a b = a - b := by
  have had : (a.den : Rat) ≠ 0 := by exact_mod_cast a.den_nz
  have hbd : (b.den : Rat) ≠ 0 := by exact_mod_cast b.den_nz
  rw [rSub, Rat.divInt_eq_div]
  push_cast
  conv_rhs => rw [← Rat.num_div_den a, ← Rat.num_div_den b]
  rw [div_sub_div _ _ had hbd]
  congr 1
  ring

theorem rDiv_eq (a b : Rat) : rDiv a b = a / b := by
  rw [rDiv, Rat.divInt_eq_div]
  rcases eq_or_ne b 0 with rfl | hb
  · simp
  · have had : (a.den : Rat) ≠ 0 := by exact_mod_cast a.den_nz
    have hbd : (b.den : Rat) ≠ 0 := by exact_mod_cast b.den_nz
    have hbn : (b.num : Rat) ≠ 0 := by
      simpa using Rat.num_ne_zero.mpr hb
    push_cast
    conv_rhs => rw [← Rat.num_div_den a, ← Rat.num_div_den b]
    rw [div_div_div_eq]
    ring_nf

/-- Association-list update mirroring Python dict assignment d[k] = v:
replaces the value at an existing key, otherwise appends the new pair. -/
def dictSet {α : Type} (m : List (String × α)) (k : String) (v : α) :
    List (String × α) :=
  match m with
  | [] => [(k, v)]
  | (k', v') :: rest =>
    if k' == k then (k, v) :: rest else (k', v') :: dictSet rest k v

/-- Association-list lookup mirroring Python dict d.get(k). -/
def dictGet {α : Type} (m : List (String × α)) (k : String) : Option α :=
  (m.find? (fun p => p.1 == k)).map (fun p => p.2)

/-- converter.py: the ml_conversions table of convert_volume (milliliters per
unit): cup=236.588, tbsp=14.787, tsp=4.929, fl_oz=29.574, ml=1, l=1000. -/
def ml_conversions : List (String × Rat) :=
  [("cup", mkRat 236588 1000), ("tbsp", mkRat 14787 1000),
   ("tsp", mkRat 4929 1000), ("fl_oz", mkRat 29574 1000),
   ("ml", 1), ("l", 1000)]

/-- converter.py: the g_conversions table of convert_weight (grams per unit):
g=1, kg=1000, oz=28.35, lb=453.592. -/
def g_conversions : List (String × Rat) :=
  [("g", 1), ("kg", 1000), ("oz", mkRat 2835 100), ("lb", mkRat 453592 1000)]

/-- converter.py _validate_unit: raises ValueError when the unit is not a
key of the table of valid units. -/
def validate_unit (unit : String) (valid_units : List (String × Rat)) :
    Except PyErr Unit :=
  if (dictGet valid_units unit).isSome then Except.ok ()
  else Except.error PyErr.valueError

/-- The shared body of converter.py convert_volume and convert_weight:
validate the target unit, then the source unit, then convert through the
base unit of the given table; both source functions are exactly this code
with their respective tables. -/
def convertViaTable (t : List (String × Rat)) (amount : Rat)
    (from_unit to_unit : String) : Except PyErr Rat :=
  match validate_unit to_unit t with
  | Except.error e => Except.error e
  | Except.ok _ =>
    match validate_unit from_unit t with
    | Except.error e => Except.error e
    | Except.ok _ =>
      match dictGet t from_unit, dictGet t to_unit with
      | some f, some g => Except.ok (rDiv (rMul amount f) g)
      | _, _ => Except.error PyErr.valueError

/-- converter.py convert_volume. -/
def convert_volume (amount : Rat) (from_unit to_unit : String) :
    Except PyErr Rat :=
  convertViaTable ml_conversions amount from_unit to_unit

/-- converter.py convert_weight. -/
def convert_weight (amount : Rat) (from_unit to_unit : String) :
    Except PyErr Rat :=
  convertViaTable g_conversions amount from_unit to_unit

/-- converter.py convert_temperature. -/
def convert_temperature (temp : Rat) (from_unit to_unit : String) :
    Except PyErr Rat :=
  if from_unit == "f" && to_unit == "c" then
    Except.ok (rDiv (rMul (rSub temp 32) 5) 9)
  else if from_unit == "c" && to_unit == "f" then
    Except.ok (rAdd (rDiv (rMul temp 9) 5) 32)
  else if from_unit == to_unit then Except.ok temp
  else Except.error PyErr.valueError

/-- Round-half-to-even, the rounding used by Python float formatting with
a fixed number of decimals (exact on the decimal values arising here). -/
def roundHalfEven (q : Rat) : Int :=
  let f := q.floor
  let r := rSub q (f : Rat)
  if r < mkRat 1 2 then f
  else if mkRat 1 2 < r then f + 1
  else if f % 2 = 0 then f else f + 1

/-- Python float formatting with no decimals, as in the f-string piece
with the format spec .0f, on the modelled rational value. -/
def format_float0 (q : Rat) : String :=
  toString (roundHalfEven q)

/-- Python float formatting with two decimals, as in the f-string piece
with the format spec .2f, on the modelled rational value. -/
def format_float2 (q : Rat) : String :=
  let n := roundHalfEven (rMul q 100)
  let s := if n < 0 then "-" else ""
  let m := n.natAbs
  s ++ toString (m / 100) ++ "." ++
    (if m % 100 < 10 then "0" else "") ++ toString (m % 100)

/-- Python str.strip with no argument: remove leading and trailing
whitespace from a character list. -/
def pyStrip (cs : List Char) : List Char :=
  ((cs.dropWhile Char.isWhitespace).reverse.dropWhile Char.isWhitespace).reverse

/-- pyStrip on a String. -/
def pyStripS (s : String) : String := String.mk (pyStrip s.data)

/-- Python str.casefold restricted to the ASCII-plus-degree-sign texts this
program deals with, where it agrees with lowercasing each character. -/
def pyLower (cs : List Char) : List Char := cs.map Char.toLower

/-- pyLower on a String. -/
def pyLowerS (s : String) : String := String.mk (pyLower s.data)

/-- Helper of pySplit: accumulate the current word (reversed) while
scanning. -/
def pySplitAux : List Char → List Char → List (List Char)
  | [], acc => if acc.isEmpty then [] else [acc.reverse]
  | c :: cs, acc =>
    if c.isWhitespace then
      if acc.isEmpty then pySplitAux cs [] else acc.reverse :: pySplitAux cs []
    else pySplitAux cs (c :: acc)

/-- Python str.split with no argument: split on whitespace runs, dropping
empty pieces. -/
def pySplit (cs : List Char) : List (List Char) := pySplitAux cs []

/-- Python str.split with a newline argument: split on each newline,
keeping empty pieces. -/
def splitOnNL (s : List Char) : List (List Char) :=
  match s with
  | [] => [[]]
  | c :: cs =>
    let r := splitOnNL cs
    if c == '\n' then [] :: r
    else
      match r with
      | h :: t => (c :: h) :: t
      | [] => [[c]]

/-- Python str.strip with a comma argument: strip leading and trailing
commas. -/
def stripCommas (cs : List Char) : List Char :=
  ((cs.dropWhile (fun c => c == ',')).reverse.dropWhile (fun c => c == ',')).reverse

/-- The word characters of the regex class in the backslash-w sense, for the
ASCII texts this program deals with: alphanumerics and the underscore. -/
def isWordChar (c : Char) : Bool := c.isAlphanum || c == '_'

/-- Word-character test on an optional character; absent (string edge)
counts as not a word character, as in the regex word-boundary rule. -/
def isWordOpt : Option Char → Bool
  | none => false
  | some c => isWordChar c

/-- The regex word boundary between two adjacent positions holds when
exactly one side is a word character. -/
def wordBoundary (a b : Option Char) : Bool := isWordOpt a != isWordOpt b

/-!
The INGREDIENT_PATTERN regex of parser.py is, writing WS for the whitespace
class star, NUM for the numeral alternation, UNIT for the variant
alternation and NAME for the lazy dot-plus group:

  caret WS (NUM)? WS (word-boundary (UNIT) word-boundary)? WS (NAME) dollar

applied with re.match and IGNORECASE to a single line (no newline inside).
It is modelled by explicit backtracking over candidate lists: each candidate
generator returns its alternatives in exactly the order the regex engine
would try them (greedy pieces longest first, alternation in written order),
and pickFirst commits to the first full success.  NAME dollar succeeds
exactly when the remaining text is nonempty.
-/

/-- First success of a partial function over a candidate list, in order:
the backtracking search order of the regex engine. -/
def pickFirst {α β : Type} : List α → (α → Option β) → Option β
  | [], _ => none
  | a :: l, f =>
    match f a with
    | some b => some b
    | none => pickFirst l f

/-- Candidate rests after the greedy whitespace star, most-consumed first. -/
def wsRests (s : List Char) : List (List Char) :=
  match s with
  | [] => [[]]
  | c :: cs => if c.isWhitespace then wsRests cs ++ [s] else [s]

/-- Candidates of the greedy digits-plus piece: (consumed, rest) pairs,
longest first; empty when no digit is next. -/
def digitsPlus (s : List Char) : List (List Char × List Char) :=
  match s with
  | [] => []
  | c :: cs =>
    if c.isDigit then
      (digitsPlus cs).map (fun p => (c :: p.1, p.2)) ++ [([c], cs)]
    else []

/-- Candidates of the greedy whitespace-plus piece, longest first. -/
def wsPlus (s : List Char) : List (List Char × List Char) :=
  match s with
  | [] => []
  | c :: cs =>
    if c.isWhitespace then
      (wsPlus cs).map (fun p => (c :: p.1, p.2)) ++ [([c], cs)]
    else []

/-- Candidates of the digits-slash-digits core of the FRACTION_PATTERN. -/
def fracCore (s : List Char) : List (List Char × List Char) :=
  (digitsPlus s).flatMap (fun p =>
    match p.2 with
    | '/' :: rb => (digitsPlus rb).map (fun q => (p.1 ++ '/' :: q.1, q.2))
    | _ => [])

/-- Candidates of the FRACTION_PATTERN with its optional integer-and-space
first part present (the greedy option, tried first). -/
def fracWithIntPart (s : List Char) : List (List Char × List Char) :=
  (digitsPlus s).flatMap (fun p =>
    (wsPlus p.2).flatMap (fun w =>
      (fracCore w.2).map (fun q => (p.1 ++ w.1 ++ q.1, q.2))))

/-- Candidates of the FRACTION_PATTERN: with the optional integer part
first, then without. -/
def fractionCandidates (s : List Char) : List (List Char × List Char) :=
  fracWithIntPart s ++ fracCore s

/-- Candidates of the DECIMAL_PATTERN: digits, a dot, digits. -/
def decimalCandidates (s : List Char) : List (List Char × List Char) :=
  (digitsPlus s).flatMap (fun p =>
    match p.2 with
    | '.' :: rb => (digitsPlus rb).map (fun q => (p.1 ++ '.' :: q.1, q.2))
    | _ => [])

/-- Candidates of the NUMBER_PATTERN alternation, in the written order:
fraction or mixed number, then decimal, then integer. -/
def numberCandidates (s : List Char) : List (List Char × List Char) :=
  fractionCandidates s ++ decimalCandidates s ++ digitsPlus s

/-- Case-insensitive match of a (lowercase) variant against the start of the
input, as the IGNORECASE regex does; returns the rest on success. -/
def matchVariantCI : List Char → List Char → Option (List Char)
  | [], s => some s
  | _ :: _, [] => none
  | c :: vs, d :: ds => if d.toLower == c then matchVariantCI vs ds else none

/-- An optional-group layer over a candidate list: group present (each
candidate in order) before group absent, as the greedy question mark does. -/
def optCandidates {α : Type} (l : List α) : List (Option α) :=
  l.map some ++ [none]

/-- The last character a segment consumed before reaching the given rest,
falling back to the character before the segment. -/
def prevAfter (seg rest : List Char) (prev0 : Option Char) : Option Char :=
  match (seg.take (seg.length - rest.length)).getLast? with
  | some c => some c
  | none => prev0
/-- parser.py VOLUME_UNITS: canonical volume units with their spelling
variants, in source order. -/
def VOLUME_UNITS : List (String × List String) :=
  [("cup", ["cup", "cups", "c.", "c"]),
   ("tablespoon", ["tablespoon", "tablespoons", "tbsp", "tbsp.", "tbs", "tbs."]),
   ("teaspoon", ["teaspoon", "teaspoons", "tsp", "tsp."]),
   ("fluid ounce", ["fluid ounce", "fluid ounces", "fl oz", "fl. oz.", "oz.", "oz"]),
   ("pint", ["pint", "pints", "pt", "pt."]),
   ("quart", ["quart", "quarts", "qt", "qt."]),
   ("gallon", ["gallon", "gallons", "gal", "gal."])]

/-- parser.py WEIGHT_UNITS. -/
def WEIGHT_UNITS : List (String × List String) :=
  [("pound", ["pound", "pounds", "lb", "lb.", "lbs", "lbs."]),
   ("ounce", ["ounce", "ounces", "oz", "oz."])]

/-- parser.py TEMPERATURE_UNITS. -/
def TEMPERATURE_UNITS : List (String × List String) :=
  [("f", ["f", "fahrenheit", "degrees f", "degrees fahrenheit", "°f", "℉"])]

/-- parser.py ALL_UNITS: the dict merge of the three family tables; their
canonical-name keys are pairwise distinct, so the merge is concatenation. -/
def ALL_UNITS : List (String × List String) :=
  VOLUME_UNITS ++ WEIGHT_UNITS ++ TEMPERATURE_UNITS

/-- Stable insertion into a list sorted by non-increasing string length:
the inserted element goes after all elements at least as long. -/
def insertByLenDesc (x : String) : List String → List String
  | [] => [x]
  | y :: ys => if x.length ≤ y.length then y :: insertByLenDesc x ys
               else x :: y :: ys

/-- A stable sort by non-increasing string length, as Python sorted with a
length key and reverse=True (stable, so ties keep their original order). -/
def sortByLenDesc (l : List String) : List String :=
  l.foldl (fun acc x => insertByLenDesc x acc) []

/-- parser.py UNIT_VARIATIONS: all variants of ALL_UNITS flattened and
sorted by length, longest first. -/
def UNIT_VARIATIONS : List String :=
  sortByLenDesc (ALL_UNITS.foldr (fun p acc => p.2 ++ acc) [])

/-- parser.py: the unit_map built in RecipeParser.__init__, mapping each
lowercased variant to its canonical unit; later families overwrite earlier
ones on duplicate variants, as Python dict assignment does. -/
def unit_map : List (String × String) :=
  ALL_UNITS.foldl
    (fun m p => p.2.foldl (fun m' v => dictSet m' (pyLowerS v) p.1) m) []

/-- Candidates of the word-bounded unit-alternation group at the given
input position, tried in UNIT_VARIATIONS order as the regex alternation is;
each candidate is the consumed input text and the rest. -/
def unitCandidates (prev : Option Char) (s : List Char) :
    List (List Char × List Char) :=
  UNIT_VARIATIONS.filterMap (fun v =>
    if wordBoundary prev s.head? then
      match matchVariantCI v.data s with
      | some rest =>
        let consumed := s.take v.length
        if wordBoundary consumed.getLast? rest.head? then some (consumed, rest)
        else none
      | none => none
    else none)

/-- The full backtracking match of INGREDIENT_PATTERN against a line (which
contains no newline): returns the numeral group, the unit group and the
name group of the first overall success in engine order, or none. -/
def matchLine (line : List Char) : Option (Option (List Char) × Option (List Char) × List Char) :=
  pickFirst (wsRests line) (fun r1 =>
    let p1 := prevAfter line r1 none
    pickFirst (optCandidates (numberCandidates r1)) (fun numC =>
      let numTxt : Option (List Char) := numC.map (fun p => p.1)
      let r2 := match numC with | some p => p.2 | none => r1
      let p2 := match numC with
                | some p => prevAfter r1 p.2 p1
                | none => p1
      pickFirst (wsRests r2) (fun r3 =>
        let p3 := prevAfter r2 r3 p2
        pickFirst (optCandidates (unitCandidates p3 r3)) (fun unitC =>
          let unitTxt : Option (List Char) := unitC.map (fun p => p.1)
          let r4 := match unitC with | some p => p.2 | none => r3
          pickFirst (wsRests r4) (fun r5 =>
            if r5.isEmpty then none else some (numTxt, unitTxt, r5))))))

/-- The digits of a numeral component as a natural number; none when the
component is empty or has a non-digit. -/
def digitsToNat : List Char → Option Nat
  | cs =>
    if cs.isEmpty || cs.any (fun c => !c.isDigit) then none
    else some (cs.foldl (fun n c => n * 10 + (c.toNat - '0'.toNat)) 0)

/-- Python Fraction construction from a string, restricted to the numeral
grammar the matched groups can contain: digits, digits-slash-digits, or
digits-dot-digits.  A zero denominator raises ZeroDivisionError; anything
else outside the grammar raises ValueError. -/
def pyFraction (cs : List Char) : Except PyErr Rat :=
  if cs.contains '/' then
    let a := cs.takeWhile (fun c => c != '/')
    let b := ((cs.dropWhile (fun c => c != '/')).tail)
    match digitsToNat a, digitsToNat b with
    | some n, some d =>
      if d == 0 then Except.error PyErr.zeroDivisionError
      else Except.ok (mkRat n d)
    | _, _ => Except.error PyErr.valueError
  else if cs.contains '.' then
    let a := cs.takeWhile (fun c => c != '.')
    let b := ((cs.dropWhile (fun c => c != '.')).tail)
    match digitsToNat a, digitsToNat b with
    | some n, some d => Except.ok (mkRat (n * 10 ^ b.length + d) (10 ^ b.length))
    | _, _ => Except.error PyErr.valueError
  else
    match digitsToNat cs with
    | some n => Except.ok ((n : Rat))
    | none => Except.error PyErr.valueError

/-- The sum of Fraction values of the whitespace-split components of the
matched numeral, as the generator sum in _parse_ingredient_line; the first
exception propagates. -/
def sumFractions : List (List Char) → Except PyErr Rat
  | [] => Except.ok 0
  | c :: cs =>
    match pyFraction c with
    | Except.error e => Except.error e
    | Except.ok q =>
      match sumFractions cs with
      | Except.error e => Except.error e
      | Except.ok r => Except.ok (rAdd q r)

/-- models.py ParsedIngredient. -/
structure ParsedIngredient where
  amount : Rat
  unit : String
  name : String
  original_text : String
deriving DecidableEq, Repr

/-- parser.py RecipeParser._normalize_unit: casefold, then canonical name
from unit_map with passthrough for unknown variants. -/
def _normalize_unit (unit_str : String) : String :=
  let u := pyLowerS unit_str
  match dictGet unit_map u with
  | some canonical => canonical
  | none => u

/-- parser.py: the name clean-up at the end of _parse_ingredient_line:
strip whitespace, drop a leading literal "of ", strip commas. -/
def cleanName (cs : List Char) : List Char :=
  let cs := pyStrip cs
  let cs := match cs with
            | 'o' :: 'f' :: ' ' :: rest => rest
            | other => other
  stripCommas cs

/-- parser.py RecipeParser._parse_ingredient_line.  The ok-none result is
the Python None return (line not classified as an ingredient); the error
result is an exception escaping (only ZeroDivisionError can: the
try-except around amount parsing catches ValueError alone). -/
def _parse_ingredient_line (line : String) : Except PyErr (Option ParsedIngredient) :=
  match matchLine line.data with
  | none => Except.ok none
  | some (amount_group, unit_group, name_group) =>
    -- if there is no amount but there is a unit, assume the amount is "1";
    -- a present group is never the empty string, so Python truthiness of the
    -- groups is their presence
    let amount_str := match amount_group, unit_group with
                      | none, some _ => some ['1']
                      | a, _ => a
    match amount_str with
    | none => Except.ok none   -- no amount and no unit: not an ingredient
    | some acs =>
      match sumFractions (pySplit (pyStrip acs)) with
      | Except.error PyErr.valueError => Except.ok none
      | Except.error e => Except.error e
      | Except.ok amount =>
        let unit := match unit_group with
                    | none => ""
                    | some u => _normalize_unit (pyStripS (String.mk u))
        Except.ok (some ⟨amount, unit, String.mk (cleanName name_group), line⟩)

/-- parser.py RecipeParser.parse_recipe on the list of split lines. -/
def parseLines : List (List Char) → Except PyErr (List ParsedIngredient)
  | [] => Except.ok []
  | l :: rest =>
    let s := pyStrip l
    if s.isEmpty then parseLines rest
    else
      match _parse_ingredient_line (String.mk s) with
      | Except.error e => Except.error e
      | Except.ok none => parseLines rest
      | Except.ok (some ing) =>
        match parseLines rest with
        | Except.error e => Except.error e
        | Except.ok ings => Except.ok (ing :: ings)

/-- parser.py RecipeParser.parse_recipe: split the text on newlines, strip
each line, skip empties, collect the lines that parse as ingredients. -/
def parse_recipe (text : String) : Except PyErr (List ParsedIngredient) :=
  parseLines (splitOnNL text.data)

/-- models.py Ingredient: a density-table entry; name and aliases are
casefolded at construction (Ingredient.__post_init__). -/
structure Ingredient where
  name : String
  density : Rat
  aliases : List String
deriving DecidableEq, Repr

/-- models.py Ingredient construction including __post_init__ casefolding. -/
def makeIngredient (name : String) (density : Rat) (aliases : List String) :
    Ingredient :=
  ⟨pyLowerS name, density, aliases.map pyLowerS⟩

/-- models.py Ingredient.convert_volume_to_weight: convert the amount to
cups, then multiply by the grams-per-cup density. -/
def Ingredient.convert_volume_to_weight (self : Ingredient) (amount : Rat)
    (unit : String) : Except PyErr Rat :=
  match convert_volume amount unit "cup" with
  | Except.error e => Except.error e
  | Except.ok cups => Except.ok (rMul cups self.density)

/-- ingredients_db.py IngredientDatabase.add_ingredient: index the entry
under its canonical name and every alias. -/
def add_ingredient (db : List (String × Ingredient)) (name : String)
    (density : Rat) (aliases : List String) : List (String × Ingredient) :=
  let ing := makeIngredient name density aliases
  ing.aliases.foldl (fun d a => dictSet d a ing) (dictSet db ing.name ing)

/-- ingredients_db.py _load_default_ingredients: the built-in density table
(name, grams per cup, aliases), in source order. -/
def default_ingredient_data : List (String × Rat × List String) :=
  [("all-purpose flour", 120, ["flour", "all purpose flour", "plain flour", "white flour"]),
   ("bread flour", 127, ["strong flour"]),
   ("cake flour", 100, ["pastry flour"]),
   ("whole wheat flour", 130, ["wholemeal flour"]),
   ("rye flour", 102, ["dark rye flour", "light rye flour"]),
   ("cornmeal", 138, ["polenta", "corn meal"]),
   ("almond flour", 96, ["ground almonds"]),
   ("oat flour", 90, ["ground oats"]),
   ("rice flour", 158, ["white rice flour"]),
   ("cornstarch", 128, ["corn starch", "cornflour", "corn flour"]),
   ("rolled oats", 85, ["old-fashioned oats", "oats"]),
   ("quick oats", 90, ["instant oats"]),
   ("rice", 185, ["white rice", "long grain rice"]),
   ("brown rice", 175, ["whole grain rice"]),
   ("granulated sugar", 200, ["sugar", "white sugar"]),
   ("brown sugar", 220, ["light brown sugar", "dark brown sugar", "packed brown sugar"]),
   ("powdered sugar", 120, ["confectioners sugar", "icing sugar"]),
   ("honey", 340, ["pure honey"]),
   ("maple syrup", 315, ["pure maple syrup"]),
   ("corn syrup", 328, ["light corn syrup"]),
   ("molasses", 328, ["black treacle"]),
   ("butter", 227, ["unsalted butter", "salted butter", "butter, softened"]),
   ("vegetable oil", 218, ["canola oil", "sunflower oil"]),
   ("olive oil", 216, ["extra virgin olive oil", "evoo"]),
   ("coconut oil", 218, ["virgin coconut oil"]),
   ("shortening", 205, ["vegetable shortening"]),
   ("milk", 240, ["whole milk", "skim milk", "semi-skimmed milk"]),
   ("heavy cream", 238, ["double cream", "whipping cream"]),
   ("half and half", 242, ["half-and-half"]),
   ("buttermilk", 240, ["cultured buttermilk"]),
   ("yogurt", 245, ["plain yogurt", "greek yogurt"]),
   ("sour cream", 230, ["cultured sour cream"]),
   ("cream cheese", 250, ["full-fat cream cheese"]),
   ("cottage cheese", 225, ["small curd cottage cheese"]),
   ("ricotta cheese", 246, ["whole milk ricotta"]),
   ("salt", 288, ["sea salt", "kosher salt", "table salt"]),
   ("baking powder", 192, []),
   ("baking soda", 220, ["bicarbonate of soda", "sodium bicarbonate"]),
   ("active dry yeast", 128, ["dried yeast"]),
   ("instant yeast", 128, ["rapid-rise yeast", "bread machine yeast"]),
   ("almonds", 142, ["whole almonds", "sliced almonds"]),
   ("walnuts", 125, ["chopped walnuts"]),
   ("pecans", 110, ["pecan halves"]),
   ("peanuts", 146, ["roasted peanuts"]),
   ("sunflower seeds", 140, ["hulled sunflower seeds"]),
   ("flax seeds", 150, ["linseeds"]),
   ("chia seeds", 170, []),
   ("cocoa powder", 100, ["unsweetened cocoa powder"]),
   ("chocolate chips", 170, ["semi-sweet chocolate chips"]),
   ("chocolate chunks", 170, ["chocolate pieces"]),
   ("milk chocolate", 168, ["milk chocolate chips"]),
   ("dark chocolate", 170, ["bittersweet chocolate"]),
   ("white chocolate", 170, ["white chocolate chips"]),
   ("raisins", 165, ["seedless raisins"]),
   ("dried cranberries", 120, ["craisins"]),
   ("carrots", 128, ["grated carrots", "shredded carrots"]),
   ("zucchini", 130, ["grated zucchini", "courgette"]),
   ("apples", 130, ["chopped apples", "diced apples"]),
   ("bananas", 230, ["mashed bananas"]),
   ("water", 237, []),
   ("coffee", 237, ["brewed coffee"]),
   ("apple juice", 242, ["unsweetened apple juice"]),
   ("orange juice", 248, ["fresh orange juice"]),
   ("vanilla extract", 208, ["pure vanilla extract"]),
   ("almond extract", 208, ["pure almond extract"]),
   ("lemon juice", 245, ["fresh lemon juice"]),
   ("lime juice", 246, ["fresh lime juice"]),
   ("cinnamon", 132, ["ground cinnamon"]),
   ("nutmeg", 125, ["ground nutmeg"]),
   ("ginger", 120, ["ground ginger"]),
   ("cloves", 130, ["ground cloves"]),
   ("allspice", 114, ["ground allspice"]),
   ("cardamom", 108, ["ground cardamom"])]

/-- ingredients_db.py: the singleton database built at import time by
add_ingredient calls in source order. -/
def ingredient_db : List (String × Ingredient) :=
  default_ingredient_data.foldl
    (fun db e => add_ingredient db e.1 e.2.1 e.2.2) []

/-- Replace hyphens and underscores by spaces, as the two str.replace calls
of get_ingredient do. -/
def normalizeSeparators (cs : List Char) : List Char :=
  cs.map (fun c => if c == '-' || c == '_' then ' ' else c)

/-- ingredients_db.py IngredientDatabase.get_ingredient: casefold, direct
lookup, then lookup after separator normalization; never raises. -/
def get_ingredient (name : String) : Option Ingredient :=
  let lookup_name := pyLowerS name
  match dictGet ingredient_db lookup_name with
  | some ing => some ing
  | none => dictGet ingredient_db (String.mk (normalizeSeparators (pyLowerS name).data))

/-- cli.py format_converted_ingredient.  The Option result is the Python
return value: some s for a returned string, none for the implicit None that
the temperature branch can fall through to.  The except-ValueError handler
is modelled at each converter call (only ValueError can arise in the try
block), returning the original text. -/
def format_converted_ingredient (ingredient : ParsedIngredient)
    (to_metric : Bool) : Option String :=
  -- skip ingredients without units
  if ingredient.unit == "" then some ingredient.original_text
  else
    -- find the ingredient in the database; without it no conversion is done
    match get_ingredient ingredient.name with
    | none => some ingredient.original_text
    | some ingredient_data =>
      -- US volume to metric weight
      if to_metric && ["cup", "tablespoon", "teaspoon", "fluid ounce"].contains ingredient.unit then
        match ingredient_data.convert_volume_to_weight ingredient.amount ingredient.unit with
        | Except.ok grams =>
          some (if grams < 1 then
                  format_float0 (rMul grams 1000) ++ " mg " ++ ingredient.name
                else if grams < 1000 then
                  format_float0 grams ++ " g " ++ ingredient.name
                else
                  format_float2 (rDiv grams 1000) ++ " kg " ++ ingredient.name)
        | Except.error _ => some ingredient.original_text
      -- US weight to metric weight
      else if to_metric && (ingredient.unit == "pound" || ingredient.unit == "ounce") then
        match convert_weight ingredient.amount ingredient.unit "g" with
        | Except.ok grams =>
          some (if grams < 1000 then
                  format_float0 grams ++ " g " ++ ingredient.name
                else
                  format_float2 (rDiv grams 1000) ++ " kg " ++ ingredient.name)
        | Except.error _ => some ingredient.original_text
      -- temperature conversion
      else if ingredient.unit == "f" || ingredient.unit == "c" then
        if to_metric && ingredient.unit == "f" then
          match convert_temperature ingredient.amount "f" "c" with
          | Except.ok celsius => some (format_float0 celsius ++ " °C " ++ ingredient.name)
          | Except.error _ => some ingredient.original_text
        else if !to_metric && ingredient.unit == "c" then
          match convert_temperature ingredient.amount "c" "f" with
          | Except.ok fahrenheit => some (format_float0 fahrenheit ++ "°F " ++ ingredient.name)
          | Except.error _ => some ingredient.original_text
        else
          -- the if-elif chain of the temperature branch has no else: Python
          -- falls out of the function and returns None
          none
      -- default: return the original text when no conversion applies
      else some ingredient.original_text

/-- cli.py convert_recipe, the body of the per-line loop: the emitted line
(none is the Python None a failed format produces, which makes the final
join raise) and this line's contribution to the conversion count. -/
def lineStep (ingredients : List ParsedIngredient) (to_metric : Bool)
    (line : String) : Option String × Nat :=
  if ingredients.any (fun ing => ing.original_text == pyStripS line) then
    match ingredients.find? (fun ing => ing.original_text == pyStripS line) with
    | some ingredient =>
      let converted := format_converted_ingredient ingredient to_metric
      -- only count as converted when it actually changed; the Python
      -- comparison counts a None result as changed too
      (converted, if converted == some ingredient.original_text then 0 else 1)
    | none => (some line, 0)
  else (some line, 0)

/-- Join lines with newlines, as the final join of convert_recipe. -/
def joinNL : List (List Char) → List Char
  | [] => []
  | [l] => l
  | l :: ls => l ++ '\n' :: joinNL ls

/-- cli.py convert_recipe on the text (the file I/O is outside the core):
some (output text, conversion count) on success; none models the
except-Exception path (a parse exception, or the TypeError the join raises
when format_converted_ingredient returned None), where nothing is written
and the count is lost. -/
def convert_recipe (text : String) (to_metric : Bool) :
    Option (String × Nat) :=
  match parse_recipe text with
  | Except.error _ => none
  | Except.ok ingredients =>
    let steps := (splitOnNL text.data).map
      (fun lc => lineStep ingredients to_metric (String.mk lc))
    if steps.any (fun st => st.1.isNone) then none
    else
      some (String.mk (joinNL (steps.map (fun st => (st.1.getD "").data))),
            steps.foldl (fun n st => n + st.2) 0)


/-! ## Helper lemmas -/

theorem convertViaTable_roundtrip (t : List (String × Rat)) (x : Rat)
    (A B : String) (fa fb : Rat)
    (hA : dictGet t A = some fa) (hB : dictGet t B = some fb)
    (ha : fa ≠ 0) (hb : fb ≠ 0) :
    Except.bind (convertViaTable t x A B)
      (fun y => convertViaTable t y B A) = Except.ok x := by
  have vA : validate_unit A t = Except.ok () := by
    rw [validate_unit, hA]; rfl
  have vB : validate_unit B t = Except.ok () := by
    rw [validate_unit, hB]; rfl
  simp only [convertViaTable, vA, vB, hA, hB, Except.bind, rMul_eq, rDiv_eq]
  rw [div_mul_cancel₀ _ hb, mul_div_cancel_right₀ _ ha]

/-! ## The claims -/

/-- Claim C1: the spec says every density-dependent volume unit (cup,
tablespoon, teaspoon, fluid ounce) converts to a formatted weight under
toMetric when the name resolves in the density table.  The code refutes
this for every unit but cup: format_converted_ingredient hands the
parser's canonical unit name to convert_volume, whose table only has the
abbreviated keys (tbsp, tsp, fl_oz), so the ValueError path returns the
original text.  Evaluation at the failing input "1 tsp baking soda" (the
repository's own CLI integration test expects "5 g baking soda" for it),
with the cup case shown converting for contrast. -/
theorem c1_teaspoon_line_not_converted :
    parse_recipe "1 tsp baking soda"
      = Except.ok [⟨1, "teaspoon", "baking soda", "1 tsp baking soda"⟩] ∧
    (get_ingredient "baking soda").isSome = true ∧
    format_converted_ingredient
        ⟨1, "teaspoon", "baking soda", "1 tsp baking soda"⟩ true
      = some "1 tsp baking soda" ∧
    convert_volume 1 "teaspoon" "cup" = Except.error PyErr.valueError ∧
    format_converted_ingredient ⟨1, "cup", "butter", "1 cup butter"⟩ true
      = some "227 g butter" := by
  refine ⟨by decide, by decide, by decide, by decide, by decide⟩

/-- Claim C2: the spec says pound and ounce lines convert to metric weight
independently of the density table.  The code refutes both halves: the
database lookup at the top of format_converted_ingredient returns the
original text early for names that do not resolve, and for names that do
resolve convert_weight rejects the canonical unit names pound and ounce
(its keys are lb and oz), so the weight branch always falls back to the
original text. -/
theorem c2_pound_lines_never_convert :
    parse_recipe "1 pound butter"
      = Except.ok [⟨1, "pound", "butter", "1 pound butter"⟩] ∧
    (get_ingredient "butter").isSome = true ∧
    format_converted_ingredient ⟨1, "pound", "butter", "1 pound butter"⟩ true
      = some "1 pound butter" ∧
    convert_weight 1 "pound" "g" = Except.error PyErr.valueError ∧
    get_ingredient "beef" = none ∧
    format_converted_ingredient ⟨1, "pound", "beef", "1 pound beef"⟩ true
      = some "1 pound beef" := by
  refine ⟨by decide, by decide, by decide, by decide, by decide, by decide⟩

/-- Claim C3: the spec says format_converted_ingredient always returns a
string, returning the original text for direction/unit combinations that
are not covered.  The code refutes this: for a parsed Fahrenheit line with
direction toUS (a combination the claim itself names), the temperature
branch falls through without a return statement and Python returns None. -/
theorem c3_toUS_fahrenheit_returns_none :
    parse_recipe "350 f water"
      = Except.ok [⟨350, "f", "water", "350 f water"⟩] ∧
    format_converted_ingredient ⟨350, "f", "water", "350 f water"⟩ false
      = none := by
  refine ⟨by decide, by decide⟩

/-- Claim C4 counterexample: convert_volume fails with the unsupported-unit
ValueError on pint (and quart and gallon), so its known unit set does not
include them. -/
theorem c4_pint_quart_gallon_unsupported :
    convert_volume 1 "pint" "ml" = Except.error PyErr.valueError ∧
    convert_volume 1 "quart" "ml" = Except.error PyErr.valueError ∧
    convert_volume 1 "gallon" "ml" = Except.error PyErr.valueError := by
  refine ⟨by decide, by decide, by decide⟩

/-- Claim C4 amended: convert_volume's known unit set is exactly cup, tbsp,
tsp, fl_oz, ml and l; pint, quart and gallon are not in it, and for every
amount a conversion from any of them fails with the unsupported-unit
ValueError instead of returning a converted value. -/
theorem c4_volume_table_lacks_pint_quart_gallon :
    ml_conversions.map Prod.fst = ["cup", "tbsp", "tsp", "fl_oz", "ml", "l"] ∧
    (∀ x : Rat, convert_volume x "pint" "ml" = Except.error PyErr.valueError) ∧
    (∀ x : Rat, convert_volume x "quart" "ml" = Except.error PyErr.valueError) ∧
    (∀ x : Rat, convert_volume x "gallon" "ml" = Except.error PyErr.valueError) :=
  ⟨by decide, fun _ => rfl, fun _ => rfl, fun _ => rfl⟩

/-- Claim C5: the spec says a malformed numeral (including a zero
denominator such as "1/0") never raises and only makes the line fail to
classify as an ingredient.  The code refutes this: Fraction("1/0") raises
ZeroDivisionError, which the except-ValueError handler in
_parse_ingredient_line does not catch, so parse_recipe over a text
containing such a line raises instead of returning normally (and
convert_recipe ends in its catch-all failure path). -/
theorem c5_zero_denominator_raises :
    parse_recipe "Cookies\n1/0 cup flour\nMix well"
      = Except.error PyErr.zeroDivisionError ∧
    convert_recipe "Cookies\n1/0 cup flour\nMix well" true = none := by
  refine ⟨by decide, by decide⟩

/-- Claim C6: the matched numeral is summed as exact rationals, so "2 1/4"
parses to exactly 9/4 = 2.25 and "3/4" to exactly 3/4 = 0.75 (both dyadic,
so the final conversion to float is also exact). -/
theorem c6_mixed_number_amounts_exact :
    parse_recipe "2 1/4 cups all-purpose flour"
      = Except.ok [⟨mkRat 9 4, "cup", "all-purpose flour",
                    "2 1/4 cups all-purpose flour"⟩] ∧
    parse_recipe "3/4 cup granulated sugar"
      = Except.ok [⟨mkRat 3 4, "cup", "granulated sugar",
                    "3/4 cup granulated sugar"⟩] ∧
    mkRat 9 4 = (2.25 : Rat) ∧ mkRat 3 4 = (0.75 : Rat) := by
  refine ⟨by decide, by decide, ?_, ?_⟩
  · rw [Rat.mkRat_eq_div]; norm_num
  · rw [Rat.mkRat_eq_div]; norm_num

/-- Claim C7: UNIT_VARIATIONS is ordered by non-increasing variant length,
so the alternation tries longer spellings first, and parsing
"2 cups flour" consumes the variant "cups", yielding canonical unit "cup"
and name "flour" with no stray "s". -/
theorem c7_longest_variant_wins :
    List.Pairwise (fun a b => b.length ≤ a.length) UNIT_VARIATIONS ∧
    "cups" ∈ UNIT_VARIATIONS ∧
    parse_recipe "2 cups flour"
      = Except.ok [⟨2, "cup", "flour", "2 cups flour"⟩] := by
  refine ⟨by decide, by decide, by decide⟩

/-- Claim C8: the spec's invariant that no spelling variant belongs to two
unit families is violated in the code: "oz" and "oz." are listed both
under the volume family fluid ounce and under the weight family ounce (the
weight family, merged later, silently wins in unit_map). -/
theorem c8_oz_claimed_by_volume_and_weight :
    ("fluid ounce",
      ["fluid ounce", "fluid ounces", "fl oz", "fl. oz.", "oz.", "oz"])
        ∈ VOLUME_UNITS ∧
    ("ounce", ["ounce", "ounces", "oz", "oz."]) ∈ WEIGHT_UNITS ∧
    dictGet unit_map "oz" = some "ounce" ∧
    dictGet unit_map "oz." = some "ounce" := by
  refine ⟨by decide, by decide, by decide, by decide⟩

/-- Claim C9: converting an amount from unit A to unit B and back returns
exactly the original amount, for every pair of units in the supported
volume set and likewise in the supported weight set (exact, with the
conversion factors modelled as exact rationals). -/
theorem c9_same_dimension_roundtrip :
    (∀ (x : Rat) (A B : String),
        A ∈ (["cup", "tbsp", "tsp", "fl_oz", "ml", "l"] : List String) →
        B ∈ (["cup", "tbsp", "tsp", "fl_oz", "ml", "l"] : List String) →
        Except.bind (convert_volume x A B) (fun y => convert_volume y B A)
          = Except.ok x) ∧
    (∀ (x : Rat) (A B : String),
        A ∈ (["g", "kg", "oz", "lb"] : List String) →
        B ∈ (["g", "kg", "oz", "lb"] : List String) →
        Except.bind (convert_weight x A B) (fun y => convert_weight y B A)
          = Except.ok x) := by
  constructor
  · intro x A B hA hB
    fin_cases hA <;> fin_cases hB <;>
      exact convertViaTable_roundtrip _ _ _ _ _ _ rfl rfl (by decide) (by decide)
  · intro x A B hA hB
    fin_cases hA <;> fin_cases hB <;>
      exact convertViaTable_roundtrip _ _ _ _ _ _ rfl rfl (by decide) (by decide)

/-- Witness for C9: the round trip evaluated at a concrete amount and
concrete unit pairs from both dimensions. -/
theorem c9_same_dimension_roundtrip_witness :
    Except.bind (convert_volume 3 "cup" "tbsp")
      (fun y => convert_volume y "tbsp" "cup") = Except.ok 3 ∧
    Except.bind (convert_weight 3 "lb" "oz")
      (fun y => convert_weight y "oz" "lb") = Except.ok 3 :=
  ⟨c9_same_dimension_roundtrip.1 3 "cup" "tbsp" (by decide) (by decide),
   c9_same_dimension_roundtrip.2 3 "lb" "oz" (by decide) (by decide)⟩

/-- Claim C10: in convert_recipe's per-line emission, a line whose trimmed
form matches a parsed ingredient but for which no conversion applies (the
formatter returns the original text) is emitted as the trimmed original
text and counts zero conversions, while a line matching no parsed
ingredient is reproduced character for character; evaluated on a concrete
recipe whose ingredient line carries surrounding whitespace that the
output drops. -/
theorem c10_unconverted_ingredient_lines_are_trimmed :
    (∀ (ings : List ParsedIngredient) (tm : Bool) (line : String)
        (ing : ParsedIngredient),
        ings.find? (fun i => i.original_text == pyStripS line) = some ing →
        format_converted_ingredient ing tm = some ing.original_text →
        lineStep ings tm line = (some (pyStripS line), 0)) ∧
    (∀ (ings : List ParsedIngredient) (tm : Bool) (line : String),
        (∀ ing ∈ ings, ing.original_text ≠ pyStripS line) →
        lineStep ings tm line = (some line, 0)) ∧
    convert_recipe "  1 pound butter  \nMix well" true
      = some ("1 pound butter\nMix well", 0) := by
  refine ⟨?_, ?_, by decide⟩
  · intro ings tm line ing hfind hfmt
    have hpred := List.find?_some hfind
    have hmem := List.mem_of_find?_eq_some hfind
    have heq : ing.original_text = pyStripS line := by simpa using hpred
    have hany : ings.any (fun i => i.original_text == pyStripS line) = true :=
      List.any_eq_true.mpr ⟨ing, hmem, hpred⟩
    rw [lineStep, if_pos hany, hfind]
    simp [hfmt, heq]
  · intro ings tm line h
    have hany : ings.any (fun i => i.original_text == pyStripS line) = false := by
      rw [List.any_eq_false]
      intro ing hmem
      simpa using h ing hmem
    rw [lineStep, if_neg (by rw [hany]; exact Bool.false_ne_true)]

/-- Witness for C10: the two general parts applied at concrete inputs: an
ingredient line with surrounding whitespace whose pound unit does not
convert, and a plain instruction line. -/
theorem c10_unconverted_ingredient_lines_are_trimmed_witness :
    lineStep [⟨1, "pound", "butter", "1 pound butter"⟩] true
        "  1 pound butter  "
      = (some (pyStripS "  1 pound butter  "), 0) ∧
    lineStep [] true "Mix well" = (some "Mix well", 0) :=
  ⟨c10_unconverted_ingredient_lines_are_trimmed.1 _ true _
      ⟨1, "pound", "butter", "1 pound butter"⟩ (by decide) (by decide),
   c10_unconverted_ingredient_lines_are_trimmed.2.1 [] true "Mix well"
      (by simp)⟩
